import Mathlib

/-!
Shallow embedding of src/mysql/src/value/encode.rs: the ToMysqlValue trait
implementations that render backend values into the MySQL text and binary
resultset wire formats.  Byte sinks are modelled as the list of bytes written
(each byte a Nat below 256).  Machine integers are modelled as Nat and Int
with explicit reduction modulo powers of two where Rust `as` casts wrap.
The platform is 64-bit, so usize and isize are 64 bits wide.
-/

/-- Outcome of one encode call.  `ok bytes` is a successful run that wrote
exactly `bytes` to the sink; `err` is the `bad(v, c)` InvalidData error
(the incompatible value/column error); `errOther` is the ErrorKind Other
error raised for negative time values; `panicked` is a Rust panic
(a failed assert or an unreachable arm). -/
inductive BinResult where
  | ok : List Nat → BinResult
  | err : BinResult
  | errOther : BinResult
  | panicked : BinResult
  deriving DecidableEq

/-- Column type codes consumed by encode.rs (crate myc ColumnType). -/
inductive ColumnType where
  | MYSQL_TYPE_DECIMAL
  | MYSQL_TYPE_TINY
  | MYSQL_TYPE_SHORT
  | MYSQL_TYPE_LONG
  | MYSQL_TYPE_FLOAT
  | MYSQL_TYPE_DOUBLE
  | MYSQL_TYPE_NULL
  | MYSQL_TYPE_TIMESTAMP
  | MYSQL_TYPE_LONGLONG
  | MYSQL_TYPE_INT24
  | MYSQL_TYPE_DATE
  | MYSQL_TYPE_TIME
  | MYSQL_TYPE_DATETIME
  | MYSQL_TYPE_YEAR
  | MYSQL_TYPE_NEWDATE
  | MYSQL_TYPE_VARCHAR
  | MYSQL_TYPE_BIT
  | MYSQL_TYPE_TIMESTAMP2
  | MYSQL_TYPE_DATETIME2
  | MYSQL_TYPE_TIME2
  | MYSQL_TYPE_JSON
  | MYSQL_TYPE_NEWDECIMAL
  | MYSQL_TYPE_ENUM
  | MYSQL_TYPE_SET
  | MYSQL_TYPE_TINY_BLOB
  | MYSQL_TYPE_MEDIUM_BLOB
  | MYSQL_TYPE_LONG_BLOB
  | MYSQL_TYPE_BLOB
  | MYSQL_TYPE_VAR_STRING
  | MYSQL_TYPE_STRING
  | MYSQL_TYPE_GEOMETRY
  deriving DecidableEq

/-- The UNSIGNED_FLAG bit of ColumnFlags (bit 5, value 32). -/
def UNSIGNED_FLAG : Nat := 32

/-- Column metadata consumed by encode.rs: the declared wire type and the
flag bitset.  The other Column fields (table, name, ...) are never read by
the encoders and are omitted. -/
structure Column where
  coltype : ColumnType
  colflags : Nat
  deriving DecidableEq

/-- colflags.contains(ColumnFlags UNSIGNED_FLAG). -/
def hasUnsignedFlag (flags : Nat) : Bool := flags &&& UNSIGNED_FLAG != 0

/-- Little-endian bytes of a nonnegative integer, fixed width `w`:
exactly what WriteBytesExt write_uN LittleEndian emits. -/
def natLE : Nat → Nat → List Nat
  | 0, _ => []
  | w + 1, n => n % 256 :: natLE w (n / 256)

/-- Rust cast of a signed value to the unsigned integer of `w` bytes:
reduction modulo 2 ^ (8 * w), always nonnegative. -/
def castU (w : Nat) (n : Int) : Nat := (n % ((2 : Int) ^ (8 * w))).toNat

/-- Little-endian two of-complement bytes of a signed value at width `w`
bytes: what write_iN LittleEndian emits. -/
def twosLE (w : Nat) (n : Int) : List Nat := natLE w (castU w n)

/-- Modelled from the spec: `write_lenenc_str` of crate myc io WriteMysqlExt
is not under src/; the spec describes it as a variable-width length prefix
per the protocol length-encoded-integer rules, followed by the raw bytes.
This is the standard MySQL length-encoded integer: below 251 one byte,
else 0xFC plus two bytes, else 0xFD plus three bytes, else 0xFE plus
eight bytes, little-endian. -/
def lenencInt (n : Nat) : List Nat :=
  if n < 251 then [n]
  else if n < 2 ^ 16 then 252 :: natLE 2 n
  else if n < 2 ^ 24 then 253 :: natLE 3 n
  else 254 :: natLE 8 n

/-- Modelled from the spec: length-encoded string, the length prefix
followed by the raw bytes. -/
def lenencStr (bs : List Nat) : List Nat := lenencInt bs.length ++ bs

/-- impl ToMysqlValue for u8, to_mysql_bin.  Widening writes are lossless;
the TINY arm asserts that the column is unsigned and panics otherwise. -/
def u8Bin (n : Nat) (c : Column) : BinResult :=
  let signed := !(hasUnsignedFlag c.colflags)
  match c.coltype with
  | .MYSQL_TYPE_LONGLONG =>
      if signed then .ok (natLE 8 n) else .ok (natLE 8 n)
  | .MYSQL_TYPE_LONG | .MYSQL_TYPE_INT24 =>
      if signed then .ok (natLE 4 n) else .ok (natLE 4 n)
  | .MYSQL_TYPE_SHORT | .MYSQL_TYPE_YEAR =>
      if signed then .ok (natLE 2 n) else .ok (natLE 2 n)
  | .MYSQL_TYPE_TINY =>
      if signed then .panicked else .ok (natLE 1 n)
  | _ => .err

/-- impl ToMysqlValue for i8, to_mysql_bin.  The unsigned arms cast with
`as u64` / `as u32` / `as u16` (wrapping); the TINY arm asserts that the
column is signed and panics otherwise. -/
def i8Bin (n : Int) (c : Column) : BinResult :=
  let signed := !(hasUnsignedFlag c.colflags)
  match c.coltype with
  | .MYSQL_TYPE_LONGLONG =>
      if signed then .ok (twosLE 8 n) else .ok (natLE 8 (castU 8 n))
  | .MYSQL_TYPE_LONG | .MYSQL_TYPE_INT24 =>
      if signed then .ok (twosLE 4 n) else .ok (natLE 4 (castU 4 n))
  | .MYSQL_TYPE_SHORT | .MYSQL_TYPE_YEAR =>
      if signed then .ok (twosLE 2 n) else .ok (natLE 2 (castU 2 n))
  | .MYSQL_TYPE_TINY =>
      if signed then .ok (twosLE 1 n) else .panicked
  | _ => .err

/-- impl ToMysqlValue for u16, to_mysql_bin. -/
def u16Bin (n : Nat) (c : Column) : BinResult :=
  let signed := !(hasUnsignedFlag c.colflags)
  match c.coltype with
  | .MYSQL_TYPE_LONGLONG =>
      if signed then .ok (natLE 8 n) else .ok (natLE 8 n)
  | .MYSQL_TYPE_LONG | .MYSQL_TYPE_INT24 =>
      if signed then .ok (natLE 4 n) else .ok (natLE 4 n)
  | .MYSQL_TYPE_SHORT | .MYSQL_TYPE_YEAR =>
      if signed then .panicked else .ok (natLE 2 n)
  | _ => .err

/-- impl ToMysqlValue for i16, to_mysql_bin. -/
def i16Bin (n : Int) (c : Column) : BinResult :=
  let signed := !(hasUnsignedFlag c.colflags)
  match c.coltype with
  | .MYSQL_TYPE_LONGLONG =>
      if signed then .ok (twosLE 8 n) else .ok (natLE 8 (castU 8 n))
  | .MYSQL_TYPE_LONG | .MYSQL_TYPE_INT24 =>
      if signed then .ok (twosLE 4 n) else .ok (natLE 4 (castU 4 n))
  | .MYSQL_TYPE_SHORT | .MYSQL_TYPE_YEAR =>
      if signed then .ok (twosLE 2 n) else .panicked
  | _ => .err

/-- impl ToMysqlValue for u32, to_mysql_bin. -/
def u32Bin (n : Nat) (c : Column) : BinResult :=
  let signed := !(hasUnsignedFlag c.colflags)
  match c.coltype with
  | .MYSQL_TYPE_LONGLONG =>
      if signed then .ok (natLE 8 n) else .ok (natLE 8 n)
  | .MYSQL_TYPE_LONG | .MYSQL_TYPE_INT24 =>
      if signed then .panicked else .ok (natLE 4 n)
  | _ => .err

/-- impl ToMysqlValue for i32, to_mysql_bin. -/
def i32Bin (n : Int) (c : Column) : BinResult :=
  let signed := !(hasUnsignedFlag c.colflags)
  match c.coltype with
  | .MYSQL_TYPE_LONGLONG =>
      if signed then .ok (twosLE 8 n) else .ok (natLE 8 (castU 8 n))
  | .MYSQL_TYPE_LONG | .MYSQL_TYPE_INT24 =>
      if signed then .ok (twosLE 4 n) else .panicked
  | _ => .err

/-- impl ToMysqlValue for u64, to_mysql_bin. -/
def u64Bin (n : Nat) (c : Column) : BinResult :=
  let signed := !(hasUnsignedFlag c.colflags)
  match c.coltype with
  | .MYSQL_TYPE_LONGLONG =>
      if signed then .panicked else .ok (natLE 8 n)
  | _ => .err

/-- impl ToMysqlValue for i64, to_mysql_bin. -/
def i64Bin (n : Int) (c : Column) : BinResult :=
  let signed := !(hasUnsignedFlag c.colflags)
  match c.coltype with
  | .MYSQL_TYPE_LONGLONG =>
      if signed then .ok (twosLE 8 n) else .panicked
  | _ => .err

/-- forgiving_numeric for usize (64-bit), expanding like_try_into at each
arm: the `min_value() as usize` / `max_value() as usize` constants below
are the literal results of the Rust casts on a 64-bit platform, so the
signed-target arms compare against a wrapped (huge) lower bound and are
unsatisfiable, exactly as in the compiled source. -/
def usizeBin (n : Nat) (c : Column) : BinResult :=
  let signed := !(hasUnsignedFlag c.colflags)
  match c.coltype with
  | .MYSQL_TYPE_LONGLONG =>
      if signed then
        if n ≤ 9223372036854775807 ∧ 9223372036854775808 ≤ n then .ok (natLE 8 n) else .err
      else
        if n ≤ 18446744073709551615 ∧ 0 ≤ n then .ok (natLE 8 n) else .err
  | .MYSQL_TYPE_LONG | .MYSQL_TYPE_INT24 =>
      if signed then
        if n ≤ 2147483647 ∧ 18446744071562067968 ≤ n then .ok (natLE 4 n) else .err
      else
        if n ≤ 4294967295 ∧ 0 ≤ n then .ok (natLE 4 n) else .err
  | .MYSQL_TYPE_SHORT | .MYSQL_TYPE_YEAR =>
      if signed then
        if n ≤ 32767 ∧ 18446744073709518848 ≤ n then .ok (natLE 2 n) else .err
      else
        if n ≤ 65535 ∧ 0 ≤ n then .ok (natLE 2 n) else .err
  | .MYSQL_TYPE_TINY =>
      if signed then
        if n ≤ 127 ∧ 18446744073709551488 ≤ n then .ok (natLE 1 n) else .err
      else
        if n ≤ 255 ∧ 0 ≤ n then .ok (natLE 1 n) else .err
  | _ => .err

/-- forgiving_numeric for isize (64-bit), expanding like_try_into at each
arm.  In the unsigned LONGLONG arm the Rust constant `u64 max_value() as
isize` is -1, so that range check is unsatisfiable, exactly as in the
compiled source. -/
def isizeBin (n : Int) (c : Column) : BinResult :=
  let signed := !(hasUnsignedFlag c.colflags)
  match c.coltype with
  | .MYSQL_TYPE_LONGLONG =>
      if signed then
        if n ≤ 9223372036854775807 ∧ -9223372036854775808 ≤ n then .ok (twosLE 8 n) else .err
      else
        if n ≤ -1 ∧ 0 ≤ n then .ok (natLE 8 (castU 8 n)) else .err
  | .MYSQL_TYPE_LONG | .MYSQL_TYPE_INT24 =>
      if signed then
        if n ≤ 2147483647 ∧ -2147483648 ≤ n then .ok (twosLE 4 n) else .err
      else
        if n ≤ 4294967295 ∧ 0 ≤ n then .ok (natLE 4 (castU 4 n)) else .err
  | .MYSQL_TYPE_SHORT | .MYSQL_TYPE_YEAR =>
      if signed then
        if n ≤ 32767 ∧ -32768 ≤ n then .ok (twosLE 2 n) else .err
      else
        if n ≤ 65535 ∧ 0 ≤ n then .ok (natLE 2 (castU 2 n)) else .err
  | .MYSQL_TYPE_TINY =>
      if signed then
        if n ≤ 127 ∧ -128 ≤ n then .ok (twosLE 1 n) else .err
      else
        if n ≤ 255 ∧ 0 ≤ n then .ok (natLE 1 (castU 1 n)) else .err
  | _ => .err

/-- impl ToMysqlValue for the byte slice, to_mysql_bin: length-encoded
string, legal only against the byte-carrying column types. -/
def bytesBin (bs : List Nat) (c : Column) : BinResult :=
  match c.coltype with
  | .MYSQL_TYPE_STRING | .MYSQL_TYPE_VAR_STRING | .MYSQL_TYPE_BLOB
  | .MYSQL_TYPE_TINY_BLOB | .MYSQL_TYPE_MEDIUM_BLOB | .MYSQL_TYPE_LONG_BLOB
  | .MYSQL_TYPE_SET | .MYSQL_TYPE_ENUM | .MYSQL_TYPE_DECIMAL
  | .MYSQL_TYPE_VARCHAR | .MYSQL_TYPE_BIT | .MYSQL_TYPE_NEWDECIMAL
  | .MYSQL_TYPE_GEOMETRY | .MYSQL_TYPE_JSON => .ok (lenencStr bs)
  | _ => .err

/-- impl ToMysqlValue for String, to_mysql_bin: delegates to the byte
slice encoder through as_bytes (a String is its UTF-8 byte list here). -/
def stringBin (s : List Nat) (c : Column) : BinResult := bytesBin s c

/-- impl ToMysqlValue for str, to_mysql_bin: delegates likewise. -/
def strBin (s : List Nat) (c : Column) : BinResult := bytesBin s c

/-- impl ToMysqlValue for Vec u8, to_mysql_bin: delegates to the slice
encoder through self[..]. -/
def vecU8Bin (s : List Nat) (c : Column) : BinResult := bytesBin s c

/-- chrono NaiveDate, reduced to the accessors encode.rs reads. -/
structure NaiveDate where
  year : Int
  month : Nat
  day : Nat
  deriving DecidableEq

/-- chrono NaiveDateTime, reduced to the accessors encode.rs reads.
`nano` is the nanosecond field. -/
structure NaiveDateTime where
  year : Int
  month : Nat
  day : Nat
  hour : Nat
  minute : Nat
  second : Nat
  nano : Nat
  deriving DecidableEq

/-- impl ToMysqlValue for NaiveDate, to_mysql_bin: legal only against
DATE; writes the length byte 4, the year cast `as u16` little-endian,
then month and day cast `as u8`. -/
def dateBin (dt : NaiveDate) (c : Column) : BinResult :=
  match c.coltype with
  | .MYSQL_TYPE_DATE =>
      .ok (4 :: natLE 2 (castU 2 dt.year) ++ [dt.month % 256, dt.day % 256])
  | _ => .err

/-- impl ToMysqlValue for NaiveDateTime, to_mysql_bin: legal only against
DATETIME or TIMESTAMP; us is nanosecond divided by 1000; length byte 11
when us is nonzero else 7, then year `as u16` little-endian, month, day,
hour, minute, second `as u8`, then us as a little-endian u32 only when
nonzero. -/
def ndtBin (t : NaiveDateTime) (c : Column) : BinResult :=
  match c.coltype with
  | .MYSQL_TYPE_DATETIME | .MYSQL_TYPE_TIMESTAMP =>
      let us := t.nano / 1000
      .ok ((if us ≠ 0 then [11] else [7]) ++ natLE 2 (castU 2 t.year)
        ++ [t.month % 256, t.day % 256, t.hour % 256, t.minute % 256, t.second % 256]
        ++ (if us ≠ 0 then natLE 4 us else []))
  | _ => .err

/-- impl ToMysqlValue for std Duration, to_mysql_bin.  `secs` is as_secs()
and `us` is subsec_micros().  The day count is asserted to be at most 34
before the column type is examined, so a longer duration panics for every
column; within the bound, legal only against TIME: a zero duration writes
the single byte 0, otherwise length byte 12 when us is nonzero else 8,
then the sign byte 0 (positive only), the day count as little-endian u32,
hour, minute, second `as u8`, then us as little-endian u32 only when
nonzero. -/
def durationBin (secs us : Nat) (c : Column) : BinResult :=
  let d := secs / 86400
  if d ≤ 34 then
    let h := secs % 86400 / 3600
    let m := secs % 3600 / 60
    let s := secs % 60
    match c.coltype with
    | .MYSQL_TYPE_TIME =>
        if secs = 0 ∧ us = 0 then .ok [0]
        else
          .ok ((if us ≠ 0 then [12] else [8]) ++ 0 :: natLE 4 d
            ++ [h % 256, m % 256, s % 256]
            ++ (if us ≠ 0 then natLE 4 us else []))
    | _ => .err
  else .panicked

/-- ASCII bytes of the decimal rendering of a Nat (format with empty
options). -/
def decAscii (n : Nat) : List Nat :=
  if n = 0 then [48] else (Nat.digits 10 n).reverse.map (fun d => d + 48)

/-- ASCII bytes of the decimal rendering of an Int. -/
def intAscii (n : Int) : List Nat :=
  if n < 0 then 45 :: decAscii n.natAbs else decAscii n.toNat

/-- Zero-padded decimal rendering of a Nat to at least `w` characters,
the Rust format spec 0w. -/
def padded (w n : Nat) : List Nat :=
  List.replicate (w - (decAscii n).length) 48 ++ decAscii n

/-- Zero-padded decimal rendering of an Int to at least `w` characters;
for a negative value the minus sign counts toward the width, as in Rust. -/
def intPadded (w : Nat) (n : Int) : List Nat :=
  if n < 0 then 45 :: padded (w - 1) n.natAbs else padded w n.toNat

/-- Leap year rule used by chrono for date validity. -/
def isLeapYear (y : Nat) : Bool := (y % 4 == 0 && y % 100 != 0) || y % 400 == 0

/-- Days in a month, used by chrono for date validity. -/
def daysInMonth (y mo : Nat) : Nat :=
  if mo = 2 then (if isLeapYear y then 29 else 28)
  else if mo = 4 ∨ mo = 6 ∨ mo = 9 ∨ mo = 11 then 30
  else 31

/-- Validity check of chrono NaiveDate from_ymd, which panics on an
invalid calendar date.  Year bounds are omitted: the dispatcher only
passes years read from a u16, which chrono accepts. -/
def validYmd (y mo d : Nat) : Bool :=
  decide (1 ≤ mo ∧ mo ≤ 12 ∧ 1 ≤ d ∧ d ≤ daysInMonth y mo)

/-- Validity check of chrono and_hms_micro, which panics on an invalid
time of day (microseconds up to 1999999 are accepted for leap seconds). -/
def validHmsMicro (h mi s us : Nat) : Bool :=
  decide (h < 24 ∧ mi < 60 ∧ s < 60 ∧ us ≤ 1999999)

/-- Text bytes of NaiveDateTime to_mysql_text: the lenenc-string of
YYYY-MM-DD HH:MM:SS, with a .ffffff fraction only when the microsecond
part (nanosecond divided by 1000) is nonzero. -/
def ndtTextBytes (t : NaiveDateTime) : List Nat :=
  let us := t.nano / 1000
  if us ≠ 0 then
    lenencStr (intPadded 4 t.year ++ [45] ++ padded 2 t.month ++ [45] ++ padded 2 t.day
      ++ [32] ++ padded 2 t.hour ++ [58] ++ padded 2 t.minute ++ [58] ++ padded 2 t.second
      ++ [46] ++ padded 6 us)
  else
    lenencStr (intPadded 4 t.year ++ [45] ++ padded 2 t.month ++ [45] ++ padded 2 t.day
      ++ [32] ++ padded 2 t.hour ++ [58] ++ padded 2 t.minute ++ [58] ++ padded 2 t.second)

/-- Text bytes of Duration to_mysql_text: hours fold in the whole day
count (h is total seconds divided by 3600), minutes, seconds, and a
.ffffff fraction only when subsec microseconds are nonzero. -/
def durationTextBytes (secs us : Nat) : List Nat :=
  let h := secs / 3600
  let m := secs % 3600 / 60
  let s := secs % 60
  if us ≠ 0 then
    lenencStr (padded 2 h ++ [58] ++ padded 2 m ++ [58] ++ padded 2 s ++ [46] ++ padded 6 us)
  else
    lenencStr (padded 2 h ++ [58] ++ padded 2 m ++ [58] ++ padded 2 s)

/-- The generic tagged value of crate myc (myc value Value) as consumed by
encode.rs.  The Float and Double variants are omitted: they are matched by
arms that never interact with the ones modelled here and no claim below
concerns floating point.  Date carries (year u16, month u8, day u8,
hour u8, minute u8, second u8, micro u32); Time carries (negative flag,
days u32, hour u8, minute u8, second u8, micro u32). -/
inductive MyValue where
  | NULL
  | Bytes (bs : List Nat)
  | Int (n : Int)
  | UInt (n : Nat)
  | Date (y mo d h mi s us : Nat)
  | Time (neg : Bool) (d h m s us : Nat)
  deriving DecidableEq

/-- impl ToMysqlValue for myc value Value, to_mysql_text.  The NULL arm
writes the 0xFB marker through the Option impl; Bytes, Int and UInt write
their lenenc text; Date builds the chrono datetime (panicking on invalid
components, as from_ymd and and_hms_micro do) and delegates; Time rejects
a negative value with the not-yet-supported error before any conversion,
then folds the components into a std Duration and delegates. -/
def valueText (v : MyValue) : BinResult :=
  match v with
  | .NULL => .ok [251]
  | .Bytes bs => .ok (lenencStr bs)
  | .Int n => .ok (lenencStr (intAscii n))
  | .UInt n => .ok (lenencStr (decAscii n))
  | .Date y mo d h mi s us =>
      if validYmd y mo d && validHmsMicro h mi s us then
        .ok (ndtTextBytes ⟨(y : Int), mo, d, h, mi, s, us * 1000⟩)
      else .panicked
  | .Time neg d h m s us =>
      if neg then .errOther
      else
        let totalUs := (d * 86400 + h * 3600 + m * 60 + s) * 1000000 + us
        .ok (durationTextBytes (totalUs / 1000000) (totalUs % 1000000))

/-- impl ToMysqlValue for myc value Value, to_mysql_bin.  NULL is
unreachable (a contract violation, handled by the caller null bitmap).
Int narrows to the smallest containing native type of the column
signedness, probing narrowest first, and delegates; a negative value
against an unsigned column is rejected with the incompatible error.
UInt delegates directly to the u64 encoder.  Date and Time build the
chrono / std values (as in to_mysql_text) and delegate. -/
def valueBin (v : MyValue) (c : Column) : BinResult :=
  match v with
  | .NULL => .panicked
  | .Bytes bs => bytesBin bs c
  | .Int n =>
      let signed := !(hasUnsignedFlag c.colflags)
      if signed then
        if -128 ≤ n ∧ n ≤ 127 then i8Bin n c
        else if -32768 ≤ n ∧ n ≤ 32767 then i16Bin n c
        else if -2147483648 ≤ n ∧ n ≤ 2147483647 then i32Bin n c
        else i64Bin n c
      else if n < 0 then .err
      else if n ≤ 255 then u8Bin n.toNat c
      else if n ≤ 65535 then u16Bin n.toNat c
      else if n ≤ 4294967295 then u32Bin n.toNat c
      else u64Bin n.toNat c
  | .UInt n => u64Bin n c
  | .Date y mo d h mi s us =>
      if validYmd y mo d && validHmsMicro h mi s us then
        ndtBin ⟨(y : Int), mo, d, h, mi, s, us * 1000⟩ c
      else .panicked
  | .Time neg d h m s us =>
      if neg then .errOther
      else
        let totalUs := (d * 86400 + h * 3600 + m * 60 + s) * 1000000 + us
        durationBin (totalUs / 1000000) (totalUs % 1000000) c

/-- Byte width of the integer wire types of section 4.2; none for every
other declared type. -/
def intWidth : ColumnType → Option Nat
  | .MYSQL_TYPE_LONGLONG => some 8
  | .MYSQL_TYPE_LONG | .MYSQL_TYPE_INT24 => some 4
  | .MYSQL_TYPE_SHORT | .MYSQL_TYPE_YEAR => some 2
  | .MYSQL_TYPE_TINY => some 1
  | _ => none

/-- The native signed range of a width of `w` bytes. -/
def inRangeS (w : Nat) (n : Int) : Prop :=
  -(2 ^ (8 * w - 1)) ≤ n ∧ n < 2 ^ (8 * w - 1)

instance (w : Nat) (n : Int) : Decidable (inRangeS w n) := by
  unfold inRangeS; infer_instance

/-- Narrowing probe of the Int arm for a signed destination: the smallest
of the native widths 1, 2, 4, 8 whose signed range holds the value,
probed narrowest first (8 when none of the narrower ones does). -/
def smallestSigned (n : Int) : Nat :=
  if -128 ≤ n ∧ n ≤ 127 then 1
  else if -32768 ≤ n ∧ n ≤ 32767 then 2
  else if -2147483648 ≤ n ∧ n ≤ 2147483647 then 4
  else 8

/-- Narrowing probe of the Int arm for an unsigned destination, for a
nonnegative value. -/
def smallestUnsigned (n : Int) : Nat :=
  if n ≤ 255 then 1
  else if n ≤ 65535 then 2
  else if n ≤ 4294967295 then 4
  else 8

/-- The concrete signed native encoder of a given byte width. -/
def signedEnc (w : Nat) (n : Int) (c : Column) : BinResult :=
  match w with
  | 1 => i8Bin n c
  | 2 => i16Bin n c
  | 4 => i32Bin n c
  | _ => i64Bin n c

/-- The concrete unsigned native encoder of a given byte width. -/
def unsignedEnc (w : Nat) (m : Nat) (c : Column) : BinResult :=
  match w with
  | 1 => u8Bin m c
  | 2 => u16Bin m c
  | 4 => u32Bin m c
  | _ => u64Bin m c

/-- The byte-carrying column types of spec section 4.3, as listed by the
claim. -/
def byteCompatible (ct : ColumnType) : Bool :=
  decide (ct ∈ [ColumnType.MYSQL_TYPE_STRING, .MYSQL_TYPE_VAR_STRING,
    .MYSQL_TYPE_VARCHAR, .MYSQL_TYPE_BLOB, .MYSQL_TYPE_TINY_BLOB,
    .MYSQL_TYPE_MEDIUM_BLOB, .MYSQL_TYPE_LONG_BLOB, .MYSQL_TYPE_SET,
    .MYSQL_TYPE_ENUM, .MYSQL_TYPE_DECIMAL, .MYSQL_TYPE_NEWDECIMAL,
    .MYSQL_TYPE_BIT, .MYSQL_TYPE_GEOMETRY, .MYSQL_TYPE_JSON])

/-- A fixed-width little-endian write emits exactly its width in bytes. -/
theorem natLE_length (w : Nat) : ∀ n, (natLE w n).length = w := by
  induction w with
  | zero => intro n; rfl
  | succ w ih => intro n; simp [natLE, ih]

/-- Two of-complement writes emit exactly their width in bytes. -/
theorem twosLE_length (w : Nat) (n : Int) : (twosLE w n).length = w := by
  simp [twosLE, natLE_length]

/-- C1: for the machine-native integers encoded through forgiving_numeric
(isize for the signed side, usize for the unsigned side) and a column of
each declared integer wire type whose unsigned flag matches the source
signedness, to_mysql_bin succeeds exactly when the value lies in the
native range of the declared type, writing exactly its width in
little-endian two of-complement bytes, and returns the incompatible-value
error otherwise. -/
theorem c1_forgiving_int_exact_range (n : Int) (m : Nat) (f g : Nat)
    (hn : -(2 ^ 63) ≤ n ∧ n < 2 ^ 63) (hm : m < 2 ^ 64)
    (hf : hasUnsignedFlag f = false) (hg : hasUnsignedFlag g = true) :
    (isizeBin n ⟨.MYSQL_TYPE_LONGLONG, f⟩ =
        if -(2 ^ 63) ≤ n ∧ n < 2 ^ 63 then .ok (twosLE 8 n) else .err)
    ∧ (isizeBin n ⟨.MYSQL_TYPE_LONG, f⟩ =
        if -(2 ^ 31) ≤ n ∧ n < 2 ^ 31 then .ok (twosLE 4 n) else .err)
    ∧ (isizeBin n ⟨.MYSQL_TYPE_INT24, f⟩ =
        if -(2 ^ 31) ≤ n ∧ n < 2 ^ 31 then .ok (twosLE 4 n) else .err)
    ∧ (isizeBin n ⟨.MYSQL_TYPE_SHORT, f⟩ =
        if -(2 ^ 15) ≤ n ∧ n < 2 ^ 15 then .ok (twosLE 2 n) else .err)
    ∧ (isizeBin n ⟨.MYSQL_TYPE_YEAR, f⟩ =
        if -(2 ^ 15) ≤ n ∧ n < 2 ^ 15 then .ok (twosLE 2 n) else .err)
    ∧ (isizeBin n ⟨.MYSQL_TYPE_TINY, f⟩ =
        if -(2 ^ 7) ≤ n ∧ n < 2 ^ 7 then .ok (twosLE 1 n) else .err)
    ∧ (usizeBin m ⟨.MYSQL_TYPE_LONGLONG, g⟩ =
        if m < 2 ^ 64 then .ok (natLE 8 m) else .err)
    ∧ (usizeBin m ⟨.MYSQL_TYPE_LONG, g⟩ =
        if m < 2 ^ 32 then .ok (natLE 4 m) else .err)
    ∧ (usizeBin m ⟨.MYSQL_TYPE_INT24, g⟩ =
        if m < 2 ^ 32 then .ok (natLE 4 m) else .err)
    ∧ (usizeBin m ⟨.MYSQL_TYPE_SHORT, g⟩ =
        if m < 2 ^ 16 then .ok (natLE 2 m) else .err)
    ∧ (usizeBin m ⟨.MYSQL_TYPE_YEAR, g⟩ =
        if m < 2 ^ 16 then .ok (natLE 2 m) else .err)
    ∧ (usizeBin m ⟨.MYSQL_TYPE_TINY, g⟩ =
        if m < 2 ^ 8 then .ok (natLE 1 m) else .err)
    ∧ (∀ w, (twosLE w n).length = w ∧ (natLE w m).length = w) := by
  refine ⟨?_, ?_, ?_, ?_, ?_, ?_, ?_, ?_, ?_, ?_, ?_, ?_,
    fun w => ⟨twosLE_length w n, natLE_length w m⟩⟩ <;>
    simp only [isizeBin, usizeBin, hf, hg, Bool.not_false, Bool.not_true, if_true, if_false] <;>
    norm_num <;>
    split_ifs <;>
    first
      | rfl
      | omega

/-- Witness for C1 at concrete inputs: 40000 overflows a signed SHORT
column and fails, 1234 fits and is written as two little-endian bytes;
300 overflows an unsigned TINY column and fails, 200 fits and is written
as one byte. -/
theorem c1_forgiving_int_exact_range_witness :
    isizeBin 40000 (Column.mk .MYSQL_TYPE_SHORT 0) = .err
    ∧ isizeBin 1234 (Column.mk .MYSQL_TYPE_SHORT 0) = .ok [210, 4]
    ∧ usizeBin 300 (Column.mk .MYSQL_TYPE_TINY 32) = .err
    ∧ usizeBin 200 (Column.mk .MYSQL_TYPE_TINY 32) = .ok [200] := by
  obtain ⟨-, -, -, h1, -, -, -, -, -, -, -, h2, -⟩ :=
    c1_forgiving_int_exact_range 40000 300 0 32 (by decide) (by decide) rfl rfl
  obtain ⟨-, -, -, h3, -, -, -, -, -, -, -, h4, -⟩ :=
    c1_forgiving_int_exact_range 1234 200 0 32 (by decide) (by decide) rfl rfl
  rw [if_neg (by decide)] at h1
  rw [if_neg (by decide)] at h2
  rw [if_pos (by decide)] at h3
  rw [if_pos (by decide)] at h4
  exact ⟨h1, by simpa using h3, h2, by simpa using h4⟩

/-- Counterexample to C2 as stated: the negative i8 value -1 encoded
against an unsigned LONGLONG column does not fail with the
incompatible-value error; it succeeds, written sign-wrapped as the
8-byte unsigned maximum. -/
theorem c2_counterexample :
    i8Bin (-1) (Column.mk .MYSQL_TYPE_LONGLONG 32) =
      .ok [255, 255, 255, 255, 255, 255, 255, 255]
    ∧ i8Bin (-1) (Column.mk .MYSQL_TYPE_LONGLONG 32) ≠ .err := by
  exact ⟨by decide, by decide⟩

/-- C2 amended: a negative isize against any unsigned integer column
fails with the incompatible-value error, and the generic Int dispatcher
likewise rejects a negative value against any unsigned column; but a
negative i8 encoded directly against a strictly wider unsigned column
succeeds sign-wrapped into the wider width, and against the equal-width
unsigned TINY column the encoder panics on its assert. -/
theorem c2_negative_vs_unsigned_amended (n : Int) (f : Nat) (ct : ColumnType)
    (hneg : -128 ≤ n ∧ n < 0) (hf : hasUnsignedFlag f = true) :
    isizeBin n ⟨ct, f⟩ = .err
    ∧ valueBin (.Int n) ⟨ct, f⟩ = .err
    ∧ i8Bin n ⟨.MYSQL_TYPE_LONGLONG, f⟩ = .ok (twosLE 8 n)
    ∧ i8Bin n ⟨.MYSQL_TYPE_LONG, f⟩ = .ok (twosLE 4 n)
    ∧ i8Bin n ⟨.MYSQL_TYPE_SHORT, f⟩ = .ok (twosLE 2 n)
    ∧ i8Bin n ⟨.MYSQL_TYPE_TINY, f⟩ = .panicked
    ∧ castU 8 n = ((2 : Int) ^ 64 + n).toNat := by
  refine ⟨?_, ?_, ?_, ?_, ?_, ?_, ?_⟩
  · cases ct <;> simp [isizeBin, hf] <;> omega
  · simp [valueBin, hf, hneg.2]
  · simp [i8Bin, hf, twosLE]
  · simp [i8Bin, hf, twosLE]
  · simp [i8Bin, hf, twosLE]
  · simp [i8Bin, hf]
  · simp only [castU]; norm_num; omega

/-- Witness for the C2 amended theorem at -1: rejection through isize and
through the generic dispatcher, sign-wrapped success of i8 at the wider
unsigned width, panic at the equal unsigned width. -/
theorem c2_negative_vs_unsigned_amended_witness :
    isizeBin (-1) (Column.mk .MYSQL_TYPE_LONG 32) = .err
    ∧ valueBin (.Int (-1)) (Column.mk .MYSQL_TYPE_LONG 32) = .err
    ∧ i8Bin (-1) (Column.mk .MYSQL_TYPE_LONGLONG 32) =
        .ok [255, 255, 255, 255, 255, 255, 255, 255]
    ∧ i8Bin (-1) (Column.mk .MYSQL_TYPE_TINY 32) = .panicked := by
  obtain ⟨h1, h2, h3, -, -, h6, -⟩ :=
    c2_negative_vs_unsigned_amended (-1) 32 .MYSQL_TYPE_LONG (by decide) rfl
  exact ⟨h1, h2, h3.trans (by decide), h6⟩

/-- Counterexample to C3 as stated: a u8 against a TINY column without
the unsigned flag is a signedness mismatch at equal width, and
to_mysql_bin panics on its assert instead of returning the error. -/
theorem c3_counterexample :
    u8Bin 1 (Column.mk .MYSQL_TYPE_TINY 0) = .panicked
    ∧ u8Bin 1 (Column.mk .MYSQL_TYPE_TINY 0) ≠ .err := by
  exact ⟨by decide, by decide⟩

/-- C3 amended: when the runtime type-class does not match the declared
wire type (a native integer against a non-integer column type) the
encoder returns the incompatible-value error; but a signedness mismatch
at equal width (u8 against a signed TINY, u64 against a signed LONGLONG)
panics on an assert instead of returning the error. -/
theorem c3_signedness_mismatch_amended (n m : Nat) (ct : ColumnType) (f : Nat)
    (hct : intWidth ct = none) :
    u8Bin n ⟨ct, f⟩ = .err
    ∧ u64Bin m ⟨ct, f⟩ = .err
    ∧ u8Bin n (Column.mk .MYSQL_TYPE_TINY 0) = .panicked
    ∧ u64Bin m (Column.mk .MYSQL_TYPE_LONGLONG 0) = .panicked := by
  refine ⟨?_, ?_, rfl, rfl⟩
  · cases ct <;> simp_all [u8Bin, intWidth]
  · cases ct <;> simp_all [u64Bin, intWidth]

/-- Witness for the C3 amended theorem: a DATE column is no integer type,
so u8 and u64 fail with the error there; the equal-width signedness
mismatches panic. -/
theorem c3_signedness_mismatch_amended_witness :
    u8Bin 7 (Column.mk .MYSQL_TYPE_DATE 5 ) = .err
    ∧ u64Bin 9 (Column.mk .MYSQL_TYPE_DATE 5 ) = .err
    ∧ u8Bin 7 (Column.mk .MYSQL_TYPE_TINY 0) = .panicked
    ∧ u64Bin 9 (Column.mk .MYSQL_TYPE_LONGLONG 0) = .panicked := by
  exact c3_signedness_mismatch_amended 7 9 .MYSQL_TYPE_DATE 5 rfl

/-- C4: the generic tagged Int value against an unsigned column fails
when negative; otherwise it is narrowed to the smallest native width of
the column signedness that represents it (probed narrowest first) and
that concrete encoder is delegated to; the probe really is minimal among
the native widths; and the value 200 against an unsigned TINY column
succeeds through the 1-byte path, producing the single byte 0xC8. -/
theorem c4_int_narrowing (n : Int) (c : Column)
    (hn : -(2 ^ 63) ≤ n ∧ n < 2 ^ 63) :
    (hasUnsignedFlag c.colflags = true → n < 0 → valueBin (.Int n) c = .err)
    ∧ (hasUnsignedFlag c.colflags = false →
        valueBin (.Int n) c = signedEnc (smallestSigned n) n c)
    ∧ (hasUnsignedFlag c.colflags = true → 0 ≤ n →
        valueBin (.Int n) c = unsignedEnc (smallestUnsigned n) n.toNat c)
    ∧ inRangeS (smallestSigned n) n
    ∧ (∀ w, w ∈ [1, 2, 4, 8] → inRangeS w n → smallestSigned n ≤ w)
    ∧ (0 ≤ n → n < 2 ^ (8 * smallestUnsigned n))
    ∧ (∀ w, w ∈ [1, 2, 4, 8] → 0 ≤ n → n < 2 ^ (8 * w) → smallestUnsigned n ≤ w)
    ∧ valueBin (.Int 200) (Column.mk .MYSQL_TYPE_TINY 32) = .ok [200] := by
  refine ⟨?_, ?_, ?_, ?_, ?_, ?_, ?_, by decide⟩
  · intro hu hneg
    simp [valueBin, hu, hneg]
  · intro hs
    simp only [valueBin, hs, Bool.not_false, if_true]
    unfold smallestSigned signedEnc
    split_ifs <;> rfl
  · intro hu h0
    simp only [valueBin, hu, Bool.not_true, Bool.false_eq_true, if_false]
    rw [if_neg (by omega)]
    unfold smallestUnsigned unsignedEnc
    split_ifs <;> rfl
  · unfold smallestSigned
    split_ifs <;> simp [inRangeS] <;> omega
  · intro w hw hr
    simp only [List.mem_cons, List.mem_singleton] at hw
    unfold smallestSigned
    rcases hw with rfl | rfl | rfl | rfl | h <;>
      first
        | (simp only [inRangeS] at hr; norm_num at hr; split_ifs <;> omega)
        | simp at h
  · intro h0
    unfold smallestUnsigned
    split_ifs <;> norm_num <;> omega
  · intro w hw h0 hr
    simp only [List.mem_cons, List.mem_singleton] at hw
    unfold smallestUnsigned
    rcases hw with rfl | rfl | rfl | rfl | h <;>
      first
        | (norm_num at hr; split_ifs <;> omega)
        | simp at h

/-- Witness for C4 at the spec example: the generic signed 200 against an
unsigned TINY column goes through the 1-byte unsigned path and writes the
single byte 200 (0xC8). -/
theorem c4_int_narrowing_witness :
    valueBin (.Int 200) (Column.mk .MYSQL_TYPE_TINY 32) = .ok [200]
    ∧ valueBin (.Int 200) (Column.mk .MYSQL_TYPE_TINY 32) =
        unsignedEnc (smallestUnsigned 200) (200 : Int).toNat
          (Column.mk .MYSQL_TYPE_TINY 32)
    ∧ smallestUnsigned 200 = 1 := by
  have h := c4_int_narrowing 200 (Column.mk .MYSQL_TYPE_TINY 32) (by decide)
  exact ⟨h.2.2.2.2.2.2.2, h.2.2.1 rfl (by decide), by decide⟩

/-- C5: for every byte sequence and every column, the binary byte-slice
encoder writes the length-encoded string and succeeds exactly when the
declared column type is one of the fourteen byte-carrying types, failing
with the incompatible-value error for every other declared type; and the
String, str and Vec encoders all delegate to the same byte-slice
encoder. -/
theorem c5_bytes_encoder (bs : List Nat) (c : Column) :
    bytesBin bs c =
      (if byteCompatible c.coltype then .ok (lenencStr bs) else .err)
    ∧ stringBin bs c = bytesBin bs c
    ∧ strBin bs c = bytesBin bs c
    ∧ vecU8Bin bs c = bytesBin bs c := by
  refine ⟨?_, rfl, rfl, rfl⟩
  obtain ⟨ct, f⟩ := c
  cases ct <;> rfl

/-- C6: a date value encodes in binary only against a DATE column, and
then as exactly five bytes: the length byte 4, the year as a little-endian
two-byte integer, the month byte and the day byte. -/
theorem c6_date_bin (y : Int) (mo d : Nat) (f : Nat) (c : Column)
    (hy : 0 ≤ y ∧ y < 65536) (hmo : mo < 256) (hd : d < 256) :
    dateBin ⟨y, mo, d⟩ ⟨.MYSQL_TYPE_DATE, f⟩ =
      .ok [4, y.toNat % 256, y.toNat / 256, mo, d]
    ∧ [4, y.toNat % 256, y.toNat / 256, mo, d].length = 5
    ∧ (c.coltype ≠ .MYSQL_TYPE_DATE → dateBin ⟨y, mo, d⟩ c = .err) := by
  have hcast : castU 2 y = y.toNat := by
    simp only [castU]
    norm_num
    omega
  have hdiv : y.toNat / 256 % 256 = y.toNat / 256 := by omega
  refine ⟨?_, rfl, ?_⟩
  · simp [dateBin, hcast, natLE, hdiv]
    omega
  · intro hne
    obtain ⟨ct, g⟩ := c
    cases ct <;> simp_all [dateBin]

/-- Witness for C6 at the spec example Date(2021, 7, 15): five bytes with
the year 2021 little-endian (0xE5 0x07), and failure on a non-DATE
column. -/
theorem c6_date_bin_witness :
    dateBin ⟨2021, 7, 15⟩ (Column.mk .MYSQL_TYPE_DATE 0) =
      .ok [4, 229, 7, 7, 15]
    ∧ dateBin ⟨2021, 7, 15⟩ (Column.mk .MYSQL_TYPE_TIME 0) = .err := by
  have h := c6_date_bin 2021 7 15 0 (Column.mk .MYSQL_TYPE_TIME 0)
    (by decide) (by decide) (by decide)
  exact ⟨h.1.trans (by decide), h.2.2 (by decide)⟩

/-- C7: a datetime encodes in binary only against DATETIME or TIMESTAMP;
with zero microseconds the length byte is 7 followed by exactly seven
payload bytes (year as little-endian u16, then month, day, hour, minute,
second), with nonzero microseconds the length byte is 11 followed by
eleven payload bytes, the last four being the microseconds as a
little-endian u32. -/
theorem c7_datetime_bin (y : Int) (mo d h mi s nano : Nat) (f : Nat) (c : Column)
    (hy : 0 ≤ y ∧ y < 65536) (hmo : mo < 256) (hd : d < 256)
    (hh : h < 256) (hmi : mi < 256) (hs : s < 256) (_hnano : nano < 2 ^ 32) :
    (∀ ct, ct = ColumnType.MYSQL_TYPE_DATETIME ∨ ct = ColumnType.MYSQL_TYPE_TIMESTAMP →
      ndtBin ⟨y, mo, d, h, mi, s, nano⟩ ⟨ct, f⟩ =
        if nano / 1000 = 0 then
          .ok [7, y.toNat % 256, y.toNat / 256, mo, d, h, mi, s]
        else
          .ok ([11, y.toNat % 256, y.toNat / 256, mo, d, h, mi, s]
            ++ natLE 4 (nano / 1000)))
    ∧ (c.coltype ≠ .MYSQL_TYPE_DATETIME → c.coltype ≠ .MYSQL_TYPE_TIMESTAMP →
        ndtBin ⟨y, mo, d, h, mi, s, nano⟩ c = .err)
    ∧ (natLE 4 (nano / 1000)).length = 4 := by
  have hcast : castU 2 y = y.toNat := by
    simp only [castU]
    norm_num
    omega
  have hdiv : y.toNat / 256 % 256 = y.toNat / 256 := by omega
  refine ⟨?_, ?_, natLE_length 4 _⟩
  · rintro ct (rfl | rfl) <;>
      by_cases h0 : nano / 1000 = 0 <;>
        simp [ndtBin, h0, hcast, natLE, hdiv] <;> omega
  · intro h1 h2
    obtain ⟨ct, g⟩ := c
    cases ct <;> simp_all [ndtBin]

/-- Witness for C7 at the spec example: the same datetime with zero
microseconds encodes with length byte 7 and seven payload bytes, and with
microseconds 500000 with length byte 11 and eleven payload bytes ending
in 500000 little-endian (0x20 0xA1 0x07 0x00). -/
theorem c7_datetime_bin_witness :
    ndtBin ⟨2021, 7, 15, 1, 2, 3, 0⟩ (Column.mk .MYSQL_TYPE_DATETIME 0) =
      .ok [7, 229, 7, 7, 15, 1, 2, 3]
    ∧ ndtBin ⟨2021, 7, 15, 1, 2, 3, 500000000⟩ (Column.mk .MYSQL_TYPE_TIMESTAMP 0) =
      .ok [11, 229, 7, 7, 15, 1, 2, 3, 32, 161, 7, 0]
    ∧ ndtBin ⟨2021, 7, 15, 1, 2, 3, 0⟩ (Column.mk .MYSQL_TYPE_DATE 0) = .err := by
  have h1 := c7_datetime_bin 2021 7 15 1 2 3 0 0 (Column.mk .MYSQL_TYPE_DATE 0)
    (by decide) (by decide) (by decide) (by decide) (by decide) (by decide) (by decide)
  have h2 := c7_datetime_bin 2021 7 15 1 2 3 500000000 0 (Column.mk .MYSQL_TYPE_DATE 0)
    (by decide) (by decide) (by decide) (by decide) (by decide) (by decide) (by decide)
  refine ⟨(h1.1 _ (Or.inl rfl)).trans (by decide),
    (h2.1 _ (Or.inr rfl)).trans (by decide), h1.2.1 (by decide) (by decide)⟩

/-- C8: a nonnegative duration of at most 34 whole days encodes in binary
only against TIME; the zero duration writes the single byte 0; a nonzero
duration writes length byte 12 when microseconds are nonzero else 8, then
the sign byte 0, the day count as a little-endian u32, hour, minute and
second bytes, and, in the 12-byte form only, the microseconds as a
little-endian u32. -/
theorem c8_duration_bin (secs us : Nat) (f : Nat) (c : Column)
    (hdays : secs / 86400 ≤ 34) (_hus : us < 1000000) :
    (durationBin secs us ⟨.MYSQL_TYPE_TIME, f⟩ =
      if secs = 0 ∧ us = 0 then .ok [0]
      else if us ≠ 0 then
        .ok ([12, 0] ++ natLE 4 (secs / 86400)
          ++ [secs % 86400 / 3600, secs % 3600 / 60, secs % 60] ++ natLE 4 us)
      else
        .ok ([8, 0] ++ natLE 4 (secs / 86400)
          ++ [secs % 86400 / 3600, secs % 3600 / 60, secs % 60]))
    ∧ (c.coltype ≠ .MYSQL_TYPE_TIME → durationBin secs us c = .err) := by
  have hh : secs % 86400 / 3600 % 256 = secs % 86400 / 3600 := by omega
  have hm : secs % 3600 / 60 % 256 = secs % 3600 / 60 := by omega
  have hs : secs % 60 % 256 = secs % 60 := by omega
  refine ⟨?_, ?_⟩
  · by_cases hz : secs = 0 ∧ us = 0
    · simp [durationBin, hdays, hz]
    · by_cases hu : us = 0 <;> simp [durationBin, hdays, hz, hu, hh, hm, hs]
  · intro hne
    obtain ⟨ct, g⟩ := c
    cases ct <;> simp_all [durationBin, hdays]

/-- Witness for C8: the zero duration writes exactly the single byte 0;
one day, one hour, one minute, one second and 500000 microseconds writes
the 12-byte form; a non-TIME column fails. -/
theorem c8_duration_bin_witness :
    durationBin 0 0 (Column.mk .MYSQL_TYPE_TIME 0) = .ok [0]
    ∧ durationBin 90061 500000 (Column.mk .MYSQL_TYPE_TIME 0) =
        .ok [12, 0, 1, 0, 0, 0, 1, 1, 1, 32, 161, 7, 0]
    ∧ durationBin 90061 500000 (Column.mk .MYSQL_TYPE_LONG 0) = .err := by
  have h1 := c8_duration_bin 0 0 0 (Column.mk .MYSQL_TYPE_LONG 0)
    (by decide) (by decide)
  have h2 := c8_duration_bin 90061 500000 0 (Column.mk .MYSQL_TYPE_LONG 0)
    (by decide) (by decide)
  exact ⟨h1.1.trans (by decide), h2.1.trans (by decide), h2.2 (by decide)⟩

/-- C9: a generic tagged Time value with the negative flag set fails with
an error in both the text and the binary format, for every column; the
sign is never flipped into a successful positive encoding. -/
theorem c9_negative_time_rejected (d h m s us : Nat) (c : Column) :
    valueBin (.Time true d h m s us) c = .errOther
    ∧ valueText (.Time true d h m s us) = .errOther :=
  ⟨rfl, rfl⟩

/-- C10: the binary DATE and DATETIME year field is the year cast to u16
with no range check: outside [0, 65535] the call still succeeds and the
two-byte field holds the year reduced modulo 2 to the 16, which always
lies in the u16 range. -/
theorem c10_year_cast_wraps (y : Int) (mo d : Nat) (f : Nat)
    (_hy : y < 0 ∨ 65535 < y) (hmo : mo < 256) (hd : d < 256) :
    dateBin ⟨y, mo, d⟩ ⟨.MYSQL_TYPE_DATE, f⟩ =
      .ok (4 :: natLE 2 (y % 65536).toNat ++ [mo, d])
    ∧ ndtBin ⟨y, mo, d, 0, 0, 0, 0⟩ ⟨.MYSQL_TYPE_DATETIME, f⟩ =
      .ok (7 :: natLE 2 (y % 65536).toNat ++ [mo, d, 0, 0, 0])
    ∧ 0 ≤ y % 65536 ∧ y % 65536 < 65536 := by
  have hcast : castU 2 y = (y % 65536).toNat := by
    simp only [castU]
    norm_num
  refine ⟨?_, ?_, ?_, ?_⟩
  · simp [dateBin, hcast]
    omega
  · simp [ndtBin, hcast, natLE]
    omega
  · exact Int.emod_nonneg y (by norm_num)
  · exact Int.emod_lt_of_pos y (by norm_num)

/-- Witness for C10 at year 70000: 70000 modulo 65536 is 4464, written as
the little-endian field 0x70 0x11, and the calls succeed. -/
theorem c10_year_cast_wraps_witness :
    dateBin ⟨70000, 7, 15⟩ (Column.mk .MYSQL_TYPE_DATE 0) =
      .ok [4, 112, 17, 7, 15]
    ∧ ndtBin ⟨70000, 7, 15, 0, 0, 0, 0⟩ (Column.mk .MYSQL_TYPE_DATETIME 0) =
      .ok [7, 112, 17, 7, 15, 0, 0, 0] := by
  have h := c10_year_cast_wraps 70000 7 15 0 (by norm_num) (by decide) (by decide)
  exact ⟨h.1.trans (by decide), h.2.1.trans (by decide)⟩
